import Mathlib

/-!
Verification of the EchoVerse session narration pipeline and history store
(`src/app.py`), shallowly embedded in Lean 4.

The two external services (the Hugging Face text2text model and the gTTS
speech synthesizer) are modelled as oracle functions passed in as
parameters; a `none` result stands for an exception raised by the service,
which the Python code catches (`except Exception`) and converts into a
`None` return value after showing an error message.
-/

/-- The request `rewrite_text_with_tone` sends to the generative model:
`rewriter(prompt, max_length=300, num_beams=4, early_stopping=True)`. -/
structure GenRequest where
  prompt : String
  max_length : Nat
  num_beams : Nat
  early_stopping : Bool
  deriving Repr, DecidableEq

/-- The request `convert_text_to_speech` sends to gTTS:
`gTTS(text=text, lang='en', tld=tld_map[accent], slow=False)`. -/
structure TTSRequest where
  text : String
  lang : String
  tld : String
  slow : Bool
  deriving Repr, DecidableEq

/-- One entry of `st.session_state.history`: the dict inserted at
`st.session_state.history.insert(0, {...})` in `src/app.py`. -/
structure NarrationRecord where
  original : String
  rewritten : String
  tone : String
  accent : String
  audio : List Nat
  deriving Repr, DecidableEq

/-- Python's `str.strip()`: drop whitespace from both ends. -/
def py_strip (s : String) : String :=
  ⟨((s.data.dropWhile Char.isWhitespace).reverse.dropWhile Char.isWhitespace).reverse⟩

/-- Python's `str.lower()`: lower-case every character. -/
def py_lower (s : String) : String :=
  ⟨s.data.map Char.toLower⟩

/-- The prompt built in `rewrite_text_with_tone`:
`f"Rewrite the following text in a {tone.lower()} tone: {text}"`. -/
def mkPrompt (text tone : String) : String :=
  "Rewrite the following text in a " ++ (py_lower tone ++ (" tone: " ++ text))

/-- The full generation request built in `rewrite_text_with_tone`. -/
def gen_request (text tone : String) : GenRequest :=
  { prompt := mkPrompt text tone
    max_length := 300
    num_beams := 4
    early_stopping := true }

/-- `rewrite_text_with_tone(text, tone)` from `src/app.py`: builds the
prompt, calls the model, returns `result[0]['generated_text'].strip()`;
any exception is caught and `None` is returned. The model is the oracle
`model`; `none` models a raised exception. -/
def rewrite_text_with_tone (model : GenRequest → Option String)
    (text tone : String) : Option String :=
  match model (gen_request text tone) with
  | some generated => some (py_strip generated)
  | none => none

/-- The `tld_map` dict in `convert_text_to_speech`; `none` models the
`KeyError` a lookup of an unmapped accent raises. -/
def tld_map (accent : String) : Option String :=
  if accent = "US English" then some "com"
  else if accent = "UK English" then some "co.uk"
  else if accent = "Australian English" then some "com.au"
  else none

/-- Outcome of `convert_text_to_speech`: the returned value (`none` for the
`except` branch's `return None`) and whether `st.error` was shown. -/
structure SynthResult where
  result : Option (List Nat)
  errorShown : Bool
  deriving Repr, DecidableEq

/-- `convert_text_to_speech(text, accent)` from `src/app.py`: looks up the
accent in `tld_map` (a missing key raises, landing in the `except` branch),
calls gTTS with `lang='en'`, the mapped `tld` and `slow=False`, and returns
the in-memory audio bytes; any exception is caught, an error is shown and
`None` is returned. The synthesizer is the oracle `tts`. -/
def convert_text_to_speech (tts : TTSRequest → Option (List Nat))
    (text accent : String) : SynthResult :=
  match tld_map accent with
  | none => { result := none, errorShown := true }
  | some tld =>
    match tts { text := text, lang := "en", tld := tld, slow := false } with
    | some audio_bytes => { result := some audio_bytes, errorShown := false }
    | none => { result := none, errorShown := true }

/-- Outcome of one press of the "Generate Audiobook" button: the updated
history together with which warnings were shown and which adapters ran. -/
structure RunResult where
  history : List NarrationRecord
  warned : Bool
  rewriteInvoked : Bool
  synthInvoked : Bool
  deriving Repr, DecidableEq

/-- The "Generate Audiobook" button handler from `src/app.py` (lines
112-131): if the trimmed input is empty a warning is shown and nothing else
happens; otherwise the rewrite adapter runs, and only if its result is
truthy (a non-empty string) does the synthesis adapter run; only if the
audio bytes are truthy (non-empty) is a new record inserted at index 0 of
the history. -/
def generate_audiobook (model : GenRequest → Option String)
    (tts : TTSRequest → Option (List Nat))
    (text_input selected_tone selected_accent : String)
    (history : List NarrationRecord) : RunResult :=
  if py_strip text_input = "" then
    { history := history, warned := true, rewriteInvoked := false, synthInvoked := false }
  else
    match rewrite_text_with_tone model text_input selected_tone with
    | none =>
      { history := history, warned := false, rewriteInvoked := true, synthInvoked := false }
    | some rewritten_text =>
      if rewritten_text = "" then
        { history := history, warned := false, rewriteInvoked := true, synthInvoked := false }
      else
        match (convert_text_to_speech tts rewritten_text selected_accent).result with
        | none =>
          { history := history, warned := false, rewriteInvoked := true, synthInvoked := true }
        | some audio_data =>
          if audio_data = [] then
            { history := history, warned := false, rewriteInvoked := true, synthInvoked := true }
          else
            { history :=
                { original := text_input
                  rewritten := rewritten_text
                  tone := selected_tone
                  accent := selected_accent
                  audio := audio_data } :: history
              warned := false
              rewriteInvoked := true
              synthInvoked := true }

/-- The suggested download filename for a record, from
`file_name=f"EchoVerse_{latest['tone']}_{latest['accent']}.mp3"`. -/
def download_file_name (r : NarrationRecord) : String :=
  "EchoVerse_" ++ (r.tone ++ ("_" ++ (r.accent ++ ".mp3")))

/-- Inputs of one pipeline run within a session. -/
structure RunInput where
  text : String
  tone : String
  accent : String
  deriving Repr, DecidableEq

/-- A sequence of button presses within one session, threading the
session-state history through `generate_audiobook`. -/
def runSession (model : GenRequest → Option String)
    (tts : TTSRequest → Option (List Nat)) :
    List RunInput → List NarrationRecord → List NarrationRecord
  | [], history => history
  | r :: rs, history =>
    runSession model tts rs
      (generate_audiobook model tts r.text r.tone r.accent history).history

/-- A run on which both adapters succeed with usable (truthy) outputs. -/
def runSucceeds (model : GenRequest → Option String)
    (tts : TTSRequest → Option (List Nat)) (r : RunInput) : Prop :=
  py_strip r.text ≠ "" ∧
  ∃ rw audio_bytes,
    rewrite_text_with_tone model r.text r.tone = some rw ∧ rw ≠ "" ∧
    (convert_text_to_speech tts rw r.accent).result = some audio_bytes ∧
    audio_bytes ≠ []

/-- The record a run produces when it succeeds: original text, rewritten
text, tone, accent and audio bytes, read off the two adapters. -/
def recordOf (model : GenRequest → Option String)
    (tts : TTSRequest → Option (List Nat)) (r : RunInput) : NarrationRecord :=
  let rw := (rewrite_text_with_tone model r.text r.tone).getD ""
  { original := r.text
    rewritten := rw
    tone := r.tone
    accent := r.accent
    audio := ((convert_text_to_speech tts rw r.accent).result).getD [] }

/-- `hay` has `needle` as a substring. -/
def strContains (needle hay : String) : Prop :=
  ∃ p s, hay = p ++ (needle ++ s)

example :
    (generate_audiobook (fun _ => some " hi ") (fun _ => some [7]) "x" "Neutral"
      "US English" []).history =
      [{ original := "x", rewritten := "hi", tone := "Neutral",
         accent := "US English", audio := [7] }] := by decide

example : tld_map "UK English" = some "co.uk" := by decide

/-! ### Helper lemmas -/

theorem generate_history_of_success (model : GenRequest → Option String)
    (tts : TTSRequest → Option (List Nat)) (t tone accent : String)
    (hist : List NarrationRecord) (rw : String) (audio_bytes : List Nat)
    (htrim : py_strip t ≠ "")
    (hrw : rewrite_text_with_tone model t tone = some rw) (hrw0 : rw ≠ "")
    (hb : (convert_text_to_speech tts rw accent).result = some audio_bytes)
    (hb0 : audio_bytes ≠ []) :
    generate_audiobook model tts t tone accent hist =
      { history :=
          { original := t, rewritten := rw, tone := tone, accent := accent,
            audio := audio_bytes } :: hist
        warned := false, rewriteInvoked := true, synthInvoked := true } := by
  unfold generate_audiobook
  rw [if_neg htrim, hrw]
  dsimp only
  rw [if_neg hrw0, hb]
  dsimp only
  rw [if_neg hb0]

theorem recordOf_of_success (model : GenRequest → Option String)
    (tts : TTSRequest → Option (List Nat)) (r : RunInput)
    (rw : String) (audio_bytes : List Nat)
    (hrw : rewrite_text_with_tone model r.text r.tone = some rw)
    (hb : (convert_text_to_speech tts rw r.accent).result = some audio_bytes) :
    recordOf model tts r =
      { original := r.text, rewritten := rw, tone := r.tone, accent := r.accent,
        audio := audio_bytes } := by
  unfold recordOf
  rw [hrw]
  dsimp only [Option.getD_some]
  rw [hb]
  rfl

theorem generate_history_suffix (model : GenRequest → Option String)
    (tts : TTSRequest → Option (List Nat)) (t tone accent : String)
    (hist : List NarrationRecord) :
    hist <:+ (generate_audiobook model tts t tone accent hist).history := by
  unfold generate_audiobook
  split
  · exact List.suffix_refl _
  · split
    · exact List.suffix_refl _
    · split
      · exact List.suffix_refl _
      · split
        · exact List.suffix_refl _
        · split
          · exact List.suffix_refl _
          · exact List.suffix_cons _ _

/-! ### Claim theorems -/

/-- C1: when the trimmed input is non-empty, the tone and accent are among
the offered choices, the rewrite adapter returns a usable (non-empty) text
and the synthesis adapter returns (non-empty) audio bytes, the button
handler prepends exactly one new record — holding the original text, the
rewritten text, the tone, the accent and the audio bytes — to the history,
which becomes its head, and the rest of the history is unchanged. -/
theorem C1_success_prepends_record (model : GenRequest → Option String)
    (tts : TTSRequest → Option (List Nat)) (t tone accent : String)
    (hist : List NarrationRecord) (rw : String) (audio_bytes : List Nat)
    (htrim : py_strip t ≠ "")
    (_htone : tone ∈ ["Neutral", "Suspenseful", "Inspiring"])
    (_haccent : accent ∈ ["US English", "UK English", "Australian English"])
    (hrw : rewrite_text_with_tone model t tone = some rw) (hrw0 : rw ≠ "")
    (hb : (convert_text_to_speech tts rw accent).result = some audio_bytes)
    (hb0 : audio_bytes ≠ []) :
    (generate_audiobook model tts t tone accent hist).history =
      { original := t, rewritten := rw, tone := tone, accent := accent,
        audio := audio_bytes } :: hist := by
  rw [generate_history_of_success model tts t tone accent hist rw audio_bytes
    htrim hrw hrw0 hb hb0]

theorem C1_witness :
    (generate_audiobook (fun _ => some " hi ") (fun _ => some [7]) "x" "Neutral"
        "US English" []).history =
      [{ original := "x", rewritten := "hi", tone := "Neutral",
         accent := "US English", audio := [7] }] :=
  C1_success_prepends_record (fun _ => some " hi ") (fun _ => some [7]) "x"
    "Neutral" "US English" [] "hi" [7] (by decide) (by decide) (by decide)
    (by decide) (by decide) (by decide) (by decide)

/-- C3: if the rewrite adapter reports failure (returns no result), the
synthesis adapter is never invoked for that run and the history is
unchanged. -/
theorem C3_rewrite_failure_skips_synthesis (model : GenRequest → Option String)
    (tts : TTSRequest → Option (List Nat)) (t tone accent : String)
    (hist : List NarrationRecord)
    (hfail : rewrite_text_with_tone model t tone = none) :
    (generate_audiobook model tts t tone accent hist).synthInvoked = false ∧
    (generate_audiobook model tts t tone accent hist).history = hist := by
  unfold generate_audiobook
  by_cases h : py_strip t = ""
  · rw [if_pos h]; exact ⟨rfl, rfl⟩
  · rw [if_neg h, hfail]; exact ⟨rfl, rfl⟩

theorem C3_witness :
    (generate_audiobook (fun _ => none) (fun _ => some [7]) "x" "Neutral"
        "US English" []).synthInvoked = false ∧
    (generate_audiobook (fun _ => none) (fun _ => some [7]) "x" "Neutral"
        "US English" []).history = [] :=
  C3_rewrite_failure_skips_synthesis (fun _ => none) (fun _ => some [7]) "x"
    "Neutral" "US English" [] (by decide)

/-- C4: if the rewrite adapter succeeds with a usable text but the
synthesis adapter reports failure, no record is added: the history is
exactly what it was before the run. -/
theorem C4_synthesis_failure_adds_nothing (model : GenRequest → Option String)
    (tts : TTSRequest → Option (List Nat)) (t tone accent : String)
    (hist : List NarrationRecord) (rw : String)
    (hrw : rewrite_text_with_tone model t tone = some rw) (hrw0 : rw ≠ "")
    (hfail : (convert_text_to_speech tts rw accent).result = none) :
    (generate_audiobook model tts t tone accent hist).history = hist := by
  unfold generate_audiobook
  by_cases h : py_strip t = ""
  · rw [if_pos h]
  · rw [if_neg h, hrw]
    dsimp only
    rw [if_neg hrw0, hfail]

theorem C4_witness :
    (generate_audiobook (fun _ => some "hi") (fun _ => none) "x" "Neutral"
        "US English" []).history = [] :=
  C4_synthesis_failure_adds_nothing (fun _ => some "hi") (fun _ => none) "x"
    "Neutral" "US English" [] "hi" (by decide) (by decide) (by decide)

/-- C5: when the trimmed input text is empty, for every tone and accent a
warning is shown, neither adapter is invoked, and the history is unchanged. -/
theorem C5_empty_input_warns_and_aborts (model : GenRequest → Option String)
    (tts : TTSRequest → Option (List Nat)) (t tone accent : String)
    (hist : List NarrationRecord) (htrim : py_strip t = "") :
    generate_audiobook model tts t tone accent hist =
      { history := hist, warned := true, rewriteInvoked := false,
        synthInvoked := false } := by
  unfold generate_audiobook
  rw [if_pos htrim]

theorem C5_witness :
    generate_audiobook (fun _ => some "hi") (fun _ => some [7]) "  " "Neutral"
        "US English" [] =
      { history := [], warned := true, rewriteInvoked := false,
        synthInvoked := false } :=
  C5_empty_input_warns_and_aborts (fun _ => some "hi") (fun _ => some [7]) "  "
    "Neutral" "US English" [] (by decide)

/-- C9: if the rewrite adapter's generated text is empty after trimming,
the run is treated as a rewrite failure: the success check on the rewritten
text rejects the empty string, the synthesis adapter is not invoked, and
the history is unchanged. -/
theorem C9_blank_rewrite_treated_as_failure (model : GenRequest → Option String)
    (tts : TTSRequest → Option (List Nat)) (t tone accent : String)
    (hist : List NarrationRecord) (generated : String)
    (hgen : model (gen_request t tone) = some generated)
    (hblank : py_strip generated = "") :
    (generate_audiobook model tts t tone accent hist).synthInvoked = false ∧
    (generate_audiobook model tts t tone accent hist).history = hist := by
  have hrw : rewrite_text_with_tone model t tone = some "" := by
    unfold rewrite_text_with_tone
    rw [hgen]
    dsimp only
    rw [hblank]
  unfold generate_audiobook
  by_cases h : py_strip t = ""
  · rw [if_pos h]; exact ⟨rfl, rfl⟩
  · rw [if_neg h, hrw]
    dsimp only
    rw [if_pos rfl]
    exact ⟨rfl, rfl⟩

theorem C9_witness :
    (generate_audiobook (fun _ => some "   ") (fun _ => some [7]) "x" "Neutral"
        "US English" []).synthInvoked = false ∧
    (generate_audiobook (fun _ => some "   ") (fun _ => some [7]) "x" "Neutral"
        "US English" []).history = [] :=
  C9_blank_rewrite_treated_as_failure (fun _ => some "   ") (fun _ => some [7])
    "x" "Neutral" "US English" [] "   " (by decide) (by decide)

/-- C2: within one session, after any number of successful runs the history
is a strict newest-first stack: running the inputs `rs` in order on top of
`h0` yields exactly the runs' records in reverse completion order followed
by the untouched `h0` (so the head is the most recent run's record and the
oldest run's record sits deepest); moreover a single button press never
removes or edits existing entries — the previous history is always a
suffix of the new one. -/
theorem C2_history_is_lifo_stack :
    (∀ (model : GenRequest → Option String) (tts : TTSRequest → Option (List Nat))
        (rs : List RunInput) (h0 : List NarrationRecord),
      (∀ r ∈ rs, runSucceeds model tts r) →
      runSession model tts rs h0 = (rs.map (recordOf model tts)).reverse ++ h0) ∧
    (∀ (model : GenRequest → Option String) (tts : TTSRequest → Option (List Nat))
        (t tone accent : String) (hist : List NarrationRecord),
      hist <:+ (generate_audiobook model tts t tone accent hist).history) := by
  constructor
  · intro model tts rs
    induction rs with
    | nil =>
      intro h0 _
      simp [runSession]
    | cons r rs ih =>
      intro h0 hall
      obtain ⟨htrim, rw, ab, hrw, hrw0, hb, hb0⟩ := hall r (List.mem_cons_self r rs)
      have hstep := generate_history_of_success model tts r.text r.tone r.accent
        h0 rw ab htrim hrw hrw0 hb hb0
      have hrec := recordOf_of_success model tts r rw ab hrw hb
      simp only [runSession]
      rw [hstep]
      dsimp only
      rw [ih _ (fun x hx => hall x (List.mem_cons_of_mem r hx)), ← hrec]
      simp [List.append_assoc]
  · intro model tts t tone accent hist
    exact generate_history_suffix model tts t tone accent hist

theorem C2_witness :
    runSession (fun _ => some " out ") (fun _ => some [1, 2])
        [⟨"first text", "Neutral", "US English"⟩,
         ⟨"second text", "Inspiring", "UK English"⟩] [] =
      [{ original := "second text", rewritten := "out", tone := "Inspiring",
         accent := "UK English", audio := [1, 2] },
       { original := "first text", rewritten := "out", tone := "Neutral",
         accent := "US English", audio := [1, 2] }] := by
  have h := C2_history_is_lifo_stack.1 (fun _ => some " out ") (fun _ => some [1, 2])
    [⟨"first text", "Neutral", "US English"⟩,
     ⟨"second text", "Inspiring", "UK English"⟩] []
    (by
      intro r hr
      refine ⟨?_, "out", [1, 2], ?_, ?_, ?_, ?_⟩ <;>
        (fin_cases hr <;> decide))
  rw [h]
  decide

/-- C6: the accent-to-locale table maps US English to "com", UK English to
"co.uk" and Australian English to "com.au", and for each of the three
accents the synthesis adapter calls the service with exactly that tld,
language "en" and `slow := false`. -/
theorem C6_accent_locale_mapping :
    tld_map "US English" = some "com" ∧
    tld_map "UK English" = some "co.uk" ∧
    tld_map "Australian English" = some "com.au" ∧
    (∀ (tts : TTSRequest → Option (List Nat)) (text : String),
      (convert_text_to_speech tts text "US English").result =
        tts { text := text, lang := "en", tld := "com", slow := false }) ∧
    (∀ (tts : TTSRequest → Option (List Nat)) (text : String),
      (convert_text_to_speech tts text "UK English").result =
        tts { text := text, lang := "en", tld := "co.uk", slow := false }) ∧
    (∀ (tts : TTSRequest → Option (List Nat)) (text : String),
      (convert_text_to_speech tts text "Australian English").result =
        tts { text := text, lang := "en", tld := "com.au", slow := false }) := by
  refine ⟨rfl, rfl, rfl, ?_, ?_, ?_⟩
  · intro tts text
    unfold convert_text_to_speech
    rw [show tld_map "US English" = some "com" from rfl]
    dsimp only
    cases tts { text := text, lang := "en", tld := "com", slow := false } <;> rfl
  · intro tts text
    unfold convert_text_to_speech
    rw [show tld_map "UK English" = some "co.uk" from rfl]
    dsimp only
    cases tts { text := text, lang := "en", tld := "co.uk", slow := false } <;> rfl
  · intro tts text
    unfold convert_text_to_speech
    rw [show tld_map "Australian English" = some "com.au" from rfl]
    dsimp only
    cases tts { text := text, lang := "en", tld := "com.au", slow := false } <;> rfl

/-- C7: the suggested download filename for the record at the head of the
history is "EchoVerse_" followed by the record's tone, an underscore, the
record's accent and ".mp3"; in particular, for tone Suspenseful and accent
UK English it is exactly "EchoVerse_Suspenseful_UK English.mp3". -/
theorem C7_download_filename (hist : List NarrationRecord) (r : NarrationRecord)
    (hhead : hist.head? = some r) :
    hist.head?.map download_file_name =
      some ("EchoVerse_" ++ (r.tone ++ ("_" ++ (r.accent ++ ".mp3")))) ∧
    (r.tone = "Suspenseful" → r.accent = "UK English" →
      hist.head?.map download_file_name =
        some "EchoVerse_Suspenseful_UK English.mp3") := by
  constructor
  · rw [hhead]
    rfl
  · intro h1 h2
    rw [hhead]
    show some (download_file_name r) = _
    unfold download_file_name
    rw [h1, h2]
    rfl

theorem C7_witness :
    ([{ original := "once upon a time", rewritten := "in a dark wood",
        tone := "Suspenseful", accent := "UK English", audio := [3] }] :
      List NarrationRecord).head?.map download_file_name =
      some "EchoVerse_Suspenseful_UK English.mp3" :=
  (C7_download_filename
    [{ original := "once upon a time", rewritten := "in a dark wood",
       tone := "Suspenseful", accent := "UK English", audio := [3] }]
    { original := "once upon a time", rewritten := "in a dark wood",
      tone := "Suspenseful", accent := "UK English", audio := [3] } rfl).2 rfl rfl

/-- C8: the rewrite adapter builds the prompt "Rewrite the following text
in a <lower-cased tone> tone: <text>" — which contains the lower-cased tone
name and the source text as substrings, and for input "Hello world" with
tone Neutral contains "neutral" and "Hello world" — submits it with
max_length 300, num_beams 4 and early_stopping, and on success returns the
generated text with surrounding whitespace trimmed. -/
theorem C8_rewrite_prompt_and_config :
    (∀ text tone, (gen_request text tone).prompt =
        "Rewrite the following text in a " ++ (py_lower tone ++ (" tone: " ++ text)) ∧
      strContains (py_lower tone) (gen_request text tone).prompt ∧
      strContains text (gen_request text tone).prompt ∧
      (gen_request text tone).max_length = 300 ∧
      (gen_request text tone).num_beams = 4 ∧
      (gen_request text tone).early_stopping = true) ∧
    (∀ (model : GenRequest → Option String) (text tone generated : String),
      model (gen_request text tone) = some generated →
      rewrite_text_with_tone model text tone = some (py_strip generated)) ∧
    strContains "neutral" (gen_request "Hello world" "Neutral").prompt ∧
    strContains "Hello world" (gen_request "Hello world" "Neutral").prompt := by
  refine ⟨?_, ?_, ?_, ?_⟩
  · intro text tone
    refine ⟨rfl,
      ⟨"Rewrite the following text in a ", " tone: " ++ text, rfl⟩, ?_, rfl, rfl, rfl⟩
    refine ⟨"Rewrite the following text in a " ++ (py_lower tone ++ " tone: "), "", ?_⟩
    show mkPrompt text tone = _
    unfold mkPrompt
    rw [String.append_empty]
    rw [String.append_assoc, String.append_assoc]
  · intro model text tone generated h
    unfold rewrite_text_with_tone
    rw [h]
  · exact ⟨"Rewrite the following text in a ", " tone: Hello world", by decide⟩
  · exact ⟨"Rewrite the following text in a neutral tone: ", "", by decide⟩

theorem C8_witness :
    rewrite_text_with_tone (fun _ => some "  rewritten out  ") "Hello world"
      "Neutral" = some "rewritten out" :=
  C8_rewrite_prompt_and_config.2.1 (fun _ => some "  rewritten out  ")
    "Hello world" "Neutral" "  rewritten out  " rfl

/-- C10: for any accent string outside the three mapped labels, the lookup
error stays inside the synthesis adapter: an error is surfaced, the adapter
returns no result, and a run with that accent never adds a record to the
history. -/
theorem C10_unmapped_accent_fails_safely (accent : String)
    (h1 : accent ≠ "US English") (h2 : accent ≠ "UK English")
    (h3 : accent ≠ "Australian English") :
    (∀ (tts : TTSRequest → Option (List Nat)) (text : String),
      (convert_text_to_speech tts text accent).result = none ∧
      (convert_text_to_speech tts text accent).errorShown = true) ∧
    (∀ (model : GenRequest → Option String) (tts : TTSRequest → Option (List Nat))
        (t tone : String) (hist : List NarrationRecord),
      (generate_audiobook model tts t tone accent hist).history = hist) := by
  have hmap : tld_map accent = none := by
    unfold tld_map
    rw [if_neg h1, if_neg h2, if_neg h3]
  have hres : ∀ (tts : TTSRequest → Option (List Nat)) (text : String),
      convert_text_to_speech tts text accent =
        { result := none, errorShown := true } := by
    intro tts text
    unfold convert_text_to_speech
    rw [hmap]
  constructor
  · intro tts text
    rw [hres tts text]
    exact ⟨rfl, rfl⟩
  · intro model tts t tone hist
    unfold generate_audiobook
    by_cases ht : py_strip t = ""
    · rw [if_pos ht]
    · rw [if_neg ht]
      cases hr : rewrite_text_with_tone model t tone with
      | none => rfl
      | some rw =>
        dsimp only
        by_cases h0 : rw = ""
        · rw [if_pos h0]
        · rw [if_neg h0, show (convert_text_to_speech tts rw accent).result = none
            from by rw [hres tts rw]]

theorem C10_witness :
    (convert_text_to_speech (fun _ => some [7]) "hello" "French").result = none ∧
    (convert_text_to_speech (fun _ => some [7]) "hello" "French").errorShown = true :=
  (C10_unmapped_accent_fails_safely "French" (by decide) (by decide)
    (by decide)).1 (fun _ => some [7]) "hello"
